import Mathlib

/-!
Shallow embedding of the location-resolution subsystem of
`src/streamlit_app.py` (AI Travel Assistant).

Modelling conventions:
* Python floats are modelled as rationals (`ℚ`); all coordinates that appear
  in the program are produced by `float(...)` conversions of JSON payloads.
* `Env` packages the responses of every external HTTP endpoint consulted by
  the resolver, so one `Env` value plays the role of a fixed set of (mocked)
  provider responses.  `Env.strFloat` models Python's `float(s)` applied to a
  string (`none` = the call raises `ValueError`).
* Python truthiness is modelled explicitly: the empty string and the float
  `0.0` are falsy (`truthy`, and the `≠ 0` guards below); `a or b` on
  optional strings is `pyOr`.
* A Python function that may raise an uncaught exception is embedded in
  `Except PyExc`; `.error` means an exception escapes the embedded code.
  `PyExc.requestError` stands for `requests.RequestException` (network
  failure, timeout, non-2xx via `raise_for_status`, undecodable JSON body);
  `PyExc.valueError` stands for the built-in conversion/lookup errors
  (`ValueError`, `TypeError`, `KeyError`, `IndexError`, `AttributeError`)
  raised while adapting a payload.
* `st.cache_data` only memoises the pure request functions, so it is
  invisible in a model in which the provider responses are already fixed.
* `st.warning` side effects are collected in an explicit warning list so the
  "warn and fall through" behaviour is part of the resolver's result.
-/

/-- Python exceptions relevant to the resolver.  `requestError` is
`requests.RequestException`; `valueError` collects the uncaught built-in
errors raised while converting payload fields (`ValueError`, `TypeError`,
`KeyError`, `IndexError`, `AttributeError`). -/
inductive PyExc where
  | requestError
  | valueError
deriving DecidableEq, Repr

/-- A JSON scalar value as it reaches a `float(...)` conversion site. -/
inductive JVal where
  | jstr (s : String)
  | jnum (q : ℚ)
  | jbool (b : Bool)
  | jnull
deriving DecidableEq, Repr

/-- Python truthiness of an optional string: `None` and `""` are falsy. -/
def truthy : Option String → Bool
  | none => false
  | some s => s ≠ ""

/-- Python `a or b` on optional strings: `a` when truthy, else `b`. -/
def pyOr (a b : Option String) : Option String :=
  if truthy a then a else b

/-- Python `float(v)` on a JSON value.  `strFloat` is the model of `float`
on strings; `none` models the conversion raising (`float(None)` raises
`TypeError`, `float("notanumber")` raises `ValueError`). -/
def pyFloat (strFloat : String → Option ℚ) : JVal → Option ℚ
  | .jstr s => strFloat s
  | .jnum q => some q
  | .jbool b => some (if b then 1 else 0)
  | .jnull => none

/-- Python truthiness of `s.strip()` (the source only ever tests the
stripped string for truthiness): `True` iff `s` has a non-whitespace
character. -/
def pyStripTruthy (s : String) : Bool := s.data.any (fun c => !c.isWhitespace)

/-- Worker for `splitComma`: accumulates the current field (reversed). -/
def splitCommaAux : List Char → List Char → List String
  | [], acc => [String.mk acc.reverse]
  | c :: cs, acc =>
    if c = ',' then String.mk acc.reverse :: splitCommaAux cs []
    else splitCommaAux cs (c :: acc)

/-- Python `s.split(",")`: split on every comma; `""` yields `[""]`. -/
def splitComma (s : String) : List String := splitCommaAux s.data []

/-- One hit of the Open-Meteo forward-geocoding response (`geocode_city`,
lines 60-66).  `latitude`/`longitude` are kept as raw JSON values because the
code applies `float(res.get(...))` to them (`.jnull` = key absent). -/
structure GeoHit where
  name : Option String
  country : Option String
  latitude : JVal
  longitude : JVal
  admin1 : Option String
  timezone : Option String
deriving DecidableEq, Repr

/-- Response of the forward-geocoding endpoint: network/HTTP failure, or a
decoded body whose `results` list is given (`[]` covers a missing, null or
empty `results` field, all falsy under `if not data.get("results")`). -/
inductive GeoResp where
  | netErr
  | ok (results : List GeoHit)
deriving DecidableEq, Repr

/-- The location dictionary built by `geocode_city` and by every branch of
`autodetect_location`: keys `name`, `country`, `lat`, `lon`, `admin1`,
`timezone`, `source`. -/
structure Meta where
  name : Option String
  country : Option String
  lat : ℚ
  lon : ℚ
  admin1 : Option String
  timezone : Option String
  source : String
deriving DecidableEq, Repr

/-- The `address` object of a Nominatim reverse-geocoding response
(fields read at lines 76-77). -/
structure NAddr where
  city : Option String
  town : Option String
  village : Option String
  municipality : Option String
  county : Option String
  state : Option String
  region : Option String
  country : Option String
deriving DecidableEq, Repr

/-- Nominatim call outcome: `netErr` is any `requests.RequestException`
(the only exception the surrounding `try` catches). -/
inductive NomResp where
  | netErr
  | ok (addr : NAddr)
deriving DecidableEq, Repr

/-- One hit of the Open-Meteo reverse-geocoding response (fields read at
lines 87-89). -/
structure RevHit where
  name : Option String
  admin1 : Option String
  country : Option String
  timezone : Option String
deriving DecidableEq, Repr

/-- Open-Meteo reverse-geocoding call outcome. -/
inductive OmRevResp where
  | netErr
  | ok (results : List RevHit)
deriving DecidableEq, Repr

/-- The dictionary returned by `reverse_geocode`; the all-`none` value with
`src = none` is the literal `{}` returned when both backends miss. -/
structure Rev where
  name : Option String
  admin1 : Option String
  country : Option String
  timezone : Option String
  src : Option String
deriving DecidableEq, Repr

/-- `ipapi.co` JSON payload: fields read by its adapter (lines 97-101).
`latitude`/`longitude` are optional raw values because the adapter first
checks key presence and then applies `float`. -/
structure IpapiJson where
  city : Option String
  region : Option String
  country_name : Option String
  country : Option String
  latitude : Option JVal
  longitude : Option JVal
  timezone : Option String
deriving DecidableEq, Repr

/-- `ipinfo.io` JSON payload: fields read by its adapter (lines 102-107);
`loc` is a raw value since `j["loc"].split(",")` requires a string. -/
structure IpinfoJson where
  city : Option String
  region : Option String
  country : Option String
  loc : Option JVal
  timezone : Option String
deriving DecidableEq, Repr

/-- `ipwho.is` JSON payload: fields read by its adapter (lines 108-113). -/
structure IpwhoJson where
  success : Option JVal
  city : Option String
  region : Option String
  country : Option String
  latitude : Option JVal
  longitude : Option JVal
  timezone : Option String
deriving DecidableEq, Repr

/-- Outcome of one IP-provider HTTP call: `netErr` is any
`requests.RequestException` (caught by the loop's `except ... continue`). -/
inductive IpResp (α : Type) where
  | netErr
  | ok (j : α)
deriving DecidableEq, Repr

/-- The dictionary an IP-provider adapter returns (keys `city`, `region`,
`country`, `lat`, `lon`, `tz`; the loop later sets `source` to the winning
provider's name — adapters leave it `""`). -/
structure IpPlace where
  city : Option String
  region : Option String
  country : Option String
  lat : ℚ
  lon : ℚ
  tz : Option String
  source : String
deriving DecidableEq, Repr

/-- The browser-GPS dictionary built by `_browser_loc_via_js_eval`
(keys `lat`, `lon`, `accuracy`, `method`). -/
structure BrowserLoc where
  lat : ℚ
  lon : ℚ
  accuracy : ℚ
  method : String
deriving DecidableEq, Repr

/-- The fixed set of external responses one resolution run observes.
`strFloat` models Python `float` on strings; the other fields are the
responses of each HTTP endpoint the resolver may consult. -/
structure Env where
  strFloat : String → Option ℚ
  geoApi : String → GeoResp
  nominatim : ℚ → ℚ → NomResp
  omReverse : ℚ → ℚ → OmRevResp
  ipapi : IpResp IpapiJson
  ipinfo : IpResp IpinfoJson
  ipwho : IpResp IpwhoJson

/-- `geocode_city` (lines 53-66).  No `try` surrounds the request: a network
failure or non-2xx status propagates as `requests.RequestException`, and a
missing/non-numeric `latitude`/`longitude` in the first hit makes
`float(...)` raise.  An empty `results` list returns `None`. -/
def geocode_city (env : Env) (city : String) : Except PyExc (Option Meta) :=
  match env.geoApi city with
  | .netErr => .error .requestError
  | .ok [] => .ok none
  | .ok (res :: _) =>
    match pyFloat env.strFloat res.latitude, pyFloat env.strFloat res.longitude with
    | some lat, some lon =>
      .ok (some { name := res.name, country := res.country, lat := lat, lon := lon,
                  admin1 := res.admin1, timezone := res.timezone,
                  source := "open-meteo geocode" })
    | _, _ => .error .valueError

/-- The `name` extracted from a Nominatim address (line 76):
`city or town or village or municipality or county`. -/
def nominatim_name (addr : NAddr) : Option String :=
  pyOr addr.city (pyOr addr.town (pyOr addr.village (pyOr addr.municipality addr.county)))

/-- The `admin1` extracted from a Nominatim address (line 77):
`state or region`. -/
def nominatim_admin1 (addr : NAddr) : Option String :=
  pyOr addr.state addr.region

/-- Whether the Nominatim backend yields a usable place:
`if name or admin1 or country` (line 78). -/
def nominatim_hit (addr : NAddr) : Bool :=
  truthy (nominatim_name addr) || truthy (nominatim_admin1 addr) || truthy addr.country

/-- The record `reverse_geocode` returns from the Nominatim backend
(line 79). -/
def nominatim_place (addr : NAddr) : Rev :=
  { name := nominatim_name addr, admin1 := nominatim_admin1 addr,
    country := addr.country, timezone := none, src := some "nominatim" }

/-- The second (Open-Meteo) reverse-geocoding attempt of `reverse_geocode`
(lines 82-92): first hit of a non-empty `results` wins, otherwise the
function falls through to `return {}` (the all-empty record). -/
def om_reverse_step (env : Env) (lat lon : ℚ) : Rev :=
  match env.omReverse lat lon with
  | .ok (r0 :: _) =>
    { name := r0.name, admin1 := r0.admin1, country := r0.country,
      timezone := r0.timezone, src := some "open-meteo reverse" }
  | _ => { name := none, admin1 := none, country := none, timezone := none, src := none }

/-- `reverse_geocode` (lines 68-92): try Nominatim; when it errs (caught
`RequestException`) or yields no usable field, try the Open-Meteo reverse
geocoder; when both miss, return `{}`.  Never raises. -/
def reverse_geocode (env : Env) (lat lon : ℚ) : Rev :=
  match env.nominatim lat lon with
  | .ok addr =>
    if nominatim_hit addr then nominatim_place addr
    else om_reverse_step env lat lon
  | .netErr => om_reverse_step env lat lon

/-- The `ipapi.co` adapter (lines 97-101): requires both coordinate keys to
be present, then applies `float` to each (raising on a bad value);
`country` is `country_name or country`. -/
def ipapiParser (strFloat : String → Option ℚ) (j : IpapiJson) :
    Except PyExc (Option IpPlace) :=
  match j.latitude, j.longitude with
  | some la, some lo =>
    match pyFloat strFloat la, pyFloat strFloat lo with
    | some lat, some lon =>
      .ok (some { city := j.city, region := j.region,
                  country := pyOr j.country_name j.country,
                  lat := lat, lon := lon, tz := j.timezone, source := "" })
    | _, _ => .error .valueError
  | _, _ => .ok none

/-- The `ipinfo.io` adapter (lines 102-107): `None` when `"loc"` is absent;
otherwise `j["loc"]` must be a string (else `AttributeError`), must split on
`","` into at least two parts (else `IndexError`), and both parts must
convert with `float` (else `ValueError`). -/
def ipinfoParser (strFloat : String → Option ℚ) (j : IpinfoJson) :
    Except PyExc (Option IpPlace) :=
  match j.loc with
  | none => .ok none
  | some (.jstr s) =>
    match (splitComma s)[0]?, (splitComma s)[1]? with
    | some a, some b =>
      match strFloat a, strFloat b with
      | some lat, some lon =>
        .ok (some { city := j.city, region := j.region, country := j.country,
                    lat := lat, lon := lon, tz := j.timezone, source := "" })
      | _, _ => .error .valueError
    | _, _ => .error .valueError
  | some _ => .error .valueError

/-- The `ipwho.is` adapter (lines 108-113): `None` when `success` is the
literal `False`; otherwise `j["latitude"]`/`j["longitude"]` must exist
(else `KeyError`) and convert with `float`. -/
def ipwhoParser (strFloat : String → Option ℚ) (j : IpwhoJson) :
    Except PyExc (Option IpPlace) :=
  if j.success = some (.jbool false) then .ok none
  else
    match j.latitude, j.longitude with
    | some la, some lo =>
      match pyFloat strFloat la, pyFloat strFloat lo with
      | some lat, some lon =>
        .ok (some { city := j.city, region := j.region, country := j.country,
                    lat := lat, lon := lon, tz := j.timezone, source := "" })
      | _, _ => .error .valueError
    | _, _ => .error .valueError

/-- One iteration of the `_try_ip_providers` loop (lines 115-123): a
`RequestException` is caught and yields no result; an adapter exception
propagates; an adapter result wins only when the parsed dictionary is
non-`None` and both coordinates are truthy (non-zero), in which case its
`source` is set to the provider's name. -/
def tryProvider {α : Type} (name : String) (resp : IpResp α)
    (parser : α → Except PyExc (Option IpPlace)) : Except PyExc (Option IpPlace) :=
  match resp with
  | .netErr => .ok none
  | .ok j =>
    match parser j with
    | .error e => .error e
    | .ok none => .ok none
    | .ok (some p) =>
      if p.lat ≠ 0 ∧ p.lon ≠ 0 then .ok (some { p with source := name }) else .ok none

/-- `_try_ip_providers` (lines 94-124): the fixed provider list
`ipapi.co`, `ipinfo.io`, `ipwho.is` is tried in order (the source's `for`
loop unrolled); the first winning provider is returned and the remaining
entries are not consulted; `None` when all three fail. -/
def _try_ip_providers (env : Env) : Except PyExc (Option IpPlace) :=
  match tryProvider "ipapi.co" env.ipapi (ipapiParser env.strFloat) with
  | .error e => .error e
  | .ok (some p) => .ok (some p)
  | .ok none =>
    match tryProvider "ipinfo.io" env.ipinfo (ipinfoParser env.strFloat) with
    | .error e => .error e
    | .ok (some p) => .ok (some p)
    | .ok none =>
      match tryProvider "ipwho.is" env.ipwho (ipwhoParser env.strFloat) with
      | .error e => .error e
      | .ok (some p) => .ok (some p)
      | .ok none => .ok none

/-- `lat, lon = [float(x) for x in force_coords.split(",")]` (line 157):
`some (lat, lon)` exactly when every comma-separated part converts and
there are exactly two of them; `none` models the `ValueError` that the
surrounding `except Exception` catches. -/
def parse_force_coords (strFloat : String → Option ℚ) (s : String) : Option (ℚ × ℚ) :=
  match (splitComma s).mapM strFloat with
  | some [lat, lon] => some (lat, lon)
  | _ => none

/-- Step 4 of `autodetect_location` (lines 191-196): forward-geocode the
default city; tag a hit `"fallback"`; otherwise `return None`. -/
def step_fallback (env : Env) (default_city : String) (warns : List String) :
    Except PyExc (Option Meta × List String) :=
  match geocode_city env default_city with
  | .error e => .error e
  | .ok (some m) => .ok (some { m with source := "fallback" }, warns)
  | .ok none => .ok (none, warns)

/-- Step 3 of `autodetect_location` (lines 181-189): the first winning IP
provider determines the coordinates; reverse-geocoded display fields are
preferred over the provider's own, with the `"Pakistan"`/`"Asia/Karachi"`
fillers last. -/
def step_ip (env : Env) (default_city : String) (warns : List String) :
    Except PyExc (Option Meta × List String) :=
  match _try_ip_providers env with
  | .error e => .error e
  | .ok (some ip) =>
    let rev := reverse_geocode env ip.lat ip.lon
    .ok (some { source := "ip:" ++ ip.source,
                name := pyOr rev.name (pyOr ip.city (some default_city)),
                admin1 := pyOr rev.admin1 ip.region,
                country := pyOr rev.country (pyOr ip.country (some "Pakistan")),
                lat := ip.lat, lon := ip.lon,
                timezone := pyOr rev.timezone (pyOr ip.tz (some "Asia/Karachi")) }, warns)
  | .ok none => step_fallback env default_city warns

/-- Step 2 of `autodetect_location` (lines 172-179): the browser dictionary
is used only when present and both coordinates are truthy (non-zero);
the missing display name is filled with the default city. -/
def step_browser (env : Env) (default_city : String) (browser_loc : Option BrowserLoc)
    (warns : List String) : Except PyExc (Option Meta × List String) :=
  match browser_loc with
  | some bl =>
    if bl.lat ≠ 0 ∧ bl.lon ≠ 0 then
      let rev := reverse_geocode env bl.lat bl.lon
      .ok (some { source := "browser-gps:" ++ bl.method,
                  name := pyOr rev.name (some default_city),
                  admin1 := rev.admin1,
                  country := pyOr rev.country (some "Pakistan"),
                  lat := bl.lat, lon := bl.lon,
                  timezone := pyOr rev.timezone (some "Asia/Karachi") }, warns)
    else step_ip env default_city warns
  | none => step_ip env default_city warns

/-- The `FORCE_CITY` step of `autodetect_location` (lines 165-170):
forward-geocode the forced city when set; a miss warns and falls through
(a geocoder exception propagates — there is no `try` here). -/
def step_force_city (env : Env) (default_city force_city : String)
    (browser_loc : Option BrowserLoc) (warns : List String) :
    Except PyExc (Option Meta × List String) :=
  if pyStripTruthy force_city then
    match geocode_city env force_city with
    | .error e => .error e
    | .ok (some m) => .ok (some { m with source := "FORCE_CITY" }, warns)
    | .ok none =>
      step_browser env default_city browser_loc
        (warns ++ ["FORCE_CITY not found via geocoder; falling back to auto-detect."])
  else step_browser env default_city browser_loc warns

/-- The `FORCE_COORDS` step of `autodetect_location` (lines 155-163): parse
`"lat,lon"`, reverse-geocode for display fields and return tagged
`"FORCE_COORDS"`; a parse failure (caught `except Exception`) warns and
falls through. -/
def step_force_coords (env : Env) (default_city force_city force_coords : String)
    (browser_loc : Option BrowserLoc) (warns : List String) :
    Except PyExc (Option Meta × List String) :=
  if pyStripTruthy force_coords then
    match parse_force_coords env.strFloat force_coords with
    | some (lat, lon) =>
      let rev := reverse_geocode env lat lon
      .ok (some { source := "FORCE_COORDS",
                  name := pyOr rev.name (pyOr (some force_city) (some default_city)),
                  admin1 := rev.admin1,
                  country := pyOr rev.country (some "Pakistan"),
                  lat := lat, lon := lon,
                  timezone := pyOr rev.timezone (some "Asia/Karachi") }, warns)
    | none =>
      step_force_city env default_city force_city browser_loc
        (warns ++ ["Could not parse FORCE_COORDS. Expected 'lat,lon' (e.g., 25.2048,55.2708 for Dubai)."])
  else step_force_city env default_city force_city browser_loc warns

/-- `autodetect_location` (lines 144-196).  `city_search` and `search_btn`
are the module-level sidebar values the function reads; the remaining
parameters are its Python parameters.  The result pairs the returned
location dictionary (`none` = Python `None`) with the `st.warning` messages
emitted along the way; `.error` means an exception escaped the function. -/
def autodetect_location (env : Env) (default_city force_city force_coords : String)
    (browser_loc : Option BrowserLoc) (city_search : String) (search_btn : Bool) :
    Except PyExc (Option Meta × List String) :=
  if city_search ≠ "" ∧ search_btn = true then
    match geocode_city env city_search with
    | .error e => .error e
    | .ok (some m) => .ok (some { m with source := "city-search" }, [])
    | .ok none =>
      step_force_coords env default_city force_city force_coords browser_loc
        ["City not found; continuing with auto-detection."]
  else step_force_coords env default_city force_city force_coords browser_loc []

/-! ### Concrete environments used by the closed theorems below -/

/-- Every dynamic signal fails: both reverse backends and all three IP
providers are unreachable, the forward geocoder answers but finds nothing,
and no string converts with `float`. -/
def envAllFail : Env :=
  { strFloat := fun _ => none
    geoApi := fun _ => .ok []
    nominatim := fun _ _ => .netErr
    omReverse := fun _ _ => .netErr
    ipapi := .netErr
    ipinfo := .netErr
    ipwho := .netErr }

/-- A Nominatim address carrying only a country. -/
def addrUAE : NAddr :=
  { city := none, town := none, village := none, municipality := none,
    county := none, state := none, region := none, country := some "UAE" }

/-- Like `envAllFail`, but the Nominatim reverse geocoder answers with an
address carrying only a country. -/
def envUAE : Env :=
  { envAllFail with nominatim := fun _ _ => .ok addrUAE }

/-- Like `envAllFail`, but the forward geocoder is unreachable (every call
raises `requests.RequestException`). -/
def envNetDown : Env :=
  { envAllFail with geoApi := fun _ => .netErr }

/-- A `float` model defined on the strings "25" and "55" only. -/
def strFloat2555 : String → Option ℚ :=
  fun s => if s = "25" then some 25 else if s = "55" then some 55 else none

/-- Like `envAllFail`, but `float` converts "25" and "55". -/
def envForce : Env := { envAllFail with strFloat := strFloat2555 }

/-- A `float` model defined on the strings "1", "2" and "3" only. -/
def strFloat123 : String → Option ℚ :=
  fun s => if s = "1" then some 1 else if s = "2" then some 2 else
    if s = "3" then some 3 else none

/-- Like `envAllFail`, but `float` converts "1", "2" and "3". -/
def envParts : Env := { envAllFail with strFloat := strFloat123 }

/-- A forward-geocoder hit for Dubai. -/
def dubaiHit : GeoHit :=
  { name := some "Dubai", country := some "United Arab Emirates",
    latitude := .jnum 25, longitude := .jnum 55,
    admin1 := some "Dubai", timezone := some "Asia/Dubai" }

/-- Like `envAllFail`, but the forward geocoder finds `dubaiHit` for every
query. -/
def envSearch : Env := { envAllFail with geoApi := fun _ => .ok [dubaiHit] }

/-- A `float` model defined on the strings "52" and "13" only. -/
def strFloat5213 : String → Option ℚ :=
  fun s => if s = "52" then some 52 else if s = "13" then some 13 else none

/-- An ipinfo.io payload with `loc = "52,13"`. -/
def jBerlin : IpinfoJson :=
  { city := some "Berlin", region := some "Berlin", country := some "DE",
    loc := some (.jstr "52,13"), timezone := some "Europe/Berlin" }

/-- The dictionary `jBerlin` parses to (before the loop sets `source`). -/
def pBerlin : IpPlace :=
  { city := some "Berlin", region := some "Berlin", country := some "DE",
    lat := 52, lon := 13, tz := some "Europe/Berlin", source := "" }

/-- ipapi.co unreachable, ipinfo.io answering with `jBerlin`, ipwho.is
unreachable. -/
def envIpInfo : Env :=
  { envAllFail with strFloat := strFloat5213, ipinfo := .ok jBerlin }

/-- An ipwho.is payload that would parse to valid coordinates. -/
def jLagos : IpwhoJson :=
  { success := none, city := some "Lagos", region := none, country := some "NG",
    latitude := some (.jnum 6), longitude := some (.jnum 3), timezone := none }

/-- An ipapi.co payload whose latitude is `0.0` (on the equator). -/
def jZero : IpapiJson :=
  { city := some "Gulf of Guinea", region := none, country_name := none,
    country := none, latitude := some (.jnum 0), longitude := some (.jnum 7),
    timezone := none }

/-- The dictionary `jZero` parses to (before the loop sets `source`). -/
def pZero : IpPlace :=
  { city := some "Gulf of Guinea", region := none, country := none,
    lat := 0, lon := 7, tz := none, source := "" }

/-- Like `envAllFail`, but ipapi.co answers with `jZero`. -/
def envIpZero : Env := { envAllFail with ipapi := .ok jZero }

/-- An Open-Meteo reverse-geocoding hit carrying only a name. -/
def rvSome : RevHit :=
  { name := some "Somewhere", admin1 := none, country := none, timezone := none }

/-- Nominatim unreachable, the Open-Meteo reverse geocoder answering with a
single hit carrying only a name. -/
def envOmOnly : Env :=
  { envAllFail with omReverse := fun _ _ => .ok [rvSome] }

/-- Browser coordinates as produced by `_browser_loc_via_js_eval`. -/
def blDubai : BrowserLoc := { lat := 25, lon := 55, accuracy := 0, method := "js-eval" }

/-- Browser coordinates lying exactly on the equator. -/
def blZero : BrowserLoc := { lat := 0, lon := 55, accuracy := 0, method := "js-eval" }

/-- Browser coordinates whose longitude is also used as a generic test
point. -/
def mDubai : Meta :=
  { name := some "Dubai", country := some "United Arab Emirates", lat := 25, lon := 55,
    admin1 := some "Dubai", timezone := some "Asia/Dubai", source := "open-meteo geocode" }

/-- The hardcoded literal fallback record described by the spec (§4.1 step 6
and claim C1): name "Karachi", region "Sindh", country "Pakistan",
coordinates (24.8607, 67.0011), time zone "Asia/Karachi", tag "fallback".
This definition follows the spec's words, for comparison only: no such
literal record exists anywhere in `src/streamlit_app.py`. -/
def spec_karachi_literal : Meta :=
  { name := some "Karachi", country := some "Pakistan", lat := 24.8607, lon := 67.0011,
    admin1 := some "Sindh", timezone := some "Asia/Karachi", source := "fallback" }

/-- Whether a Nominatim response yields no usable place (network failure, or
an address none of whose name/admin1/country fields is truthy) — the
condition under which `reverse_geocode` consults its second backend. -/
def nominatim_miss : NomResp → Bool
  | .netErr => true
  | .ok addr => !nominatim_hit addr

/-- Whether an Open-Meteo reverse response yields no hit (network failure or
an empty `results` list) — the condition under which `reverse_geocode`
returns `{}`. -/
def om_reverse_miss : OmRevResp → Bool
  | .netErr => true
  | .ok [] => true
  | .ok (_ :: _) => false

/-! ### Helper lemmas (congruence of the chain in the browser signal) -/

lemma step_browser_zero (env : Env) (d : String) (bl : BrowserLoc) (w : List String)
    (h : bl.lat = 0 ∨ bl.lon = 0) :
    step_browser env d (some bl) w = step_browser env d none w := by
  rcases h with h | h <;> simp [step_browser, h]

lemma step_force_city_browser_cong (env : Env) (d fcity : String)
    (bl1 bl2 : Option BrowserLoc)
    (h : ∀ w, step_browser env d bl1 w = step_browser env d bl2 w) (w : List String) :
    step_force_city env d fcity bl1 w = step_force_city env d fcity bl2 w := by
  unfold step_force_city
  split
  · cases hgc : geocode_city env fcity with
    | error e => rfl
    | ok o =>
      cases o with
      | some m => rfl
      | none => exact h _
  · exact h w

lemma step_force_coords_browser_cong (env : Env) (d fcity fc : String)
    (bl1 bl2 : Option BrowserLoc)
    (h : ∀ w, step_browser env d bl1 w = step_browser env d bl2 w) (w : List String) :
    step_force_coords env d fcity fc bl1 w = step_force_coords env d fcity fc bl2 w := by
  unfold step_force_coords
  split
  · cases hp : parse_force_coords env.strFloat fc with
    | some pair => rfl
    | none => exact step_force_city_browser_cong env d fcity bl1 bl2 h _
  · exact step_force_city_browser_cong env d fcity bl1 bl2 h w

lemma autodetect_browser_cong (env : Env) (d fcity fc cs : String) (sb : Bool)
    (bl1 bl2 : Option BrowserLoc)
    (h : ∀ w, step_browser env d bl1 w = step_browser env d bl2 w) :
    autodetect_location env d fcity fc bl1 cs sb =
      autodetect_location env d fcity fc bl2 cs sb := by
  unfold autodetect_location
  split
  · cases hgc : geocode_city env cs with
    | error e => rfl
    | ok o =>
      cases o with
      | some m => rfl
      | none => exact step_force_coords_browser_cong env d fcity fc bl1 bl2 h _
  · exact step_force_coords_browser_cong env d fcity fc bl1 bl2 h _

/-! ### Claim theorems -/

/-- Claim C1, counterexample.  With the manual search unset, no force
configuration, no browser coordinates, every IP provider failing and the
forward geocode of the default city finding nothing, `autodetect_location`
returns Python `None` — not the literal Karachi record the claim promises,
which in particular is a `some` value. -/
theorem resolver_none_when_all_fail_cex :
    autodetect_location envAllFail "Karachi" "" "" none "" false = .ok (none, []) ∧
    some spec_karachi_literal ≠ (none : Option Meta) := by
  exact ⟨rfl, by decide⟩

/-- Claim C1, amended.  When every dynamic signal fails (no search, no force
configuration, no browser coordinates, all IP providers unreachable) and the
default-city geocode returns no result, resolution returns an absent
(`None`) result rather than any literal record: the resolver can fail to
produce a location. -/
theorem resolver_absent_when_all_signals_fail (env : Env) (cs : String)
    (hip1 : env.ipapi = .netErr) (hip2 : env.ipinfo = .netErr) (hip3 : env.ipwho = .netErr)
    (hgeo : env.geoApi "Karachi" = .ok []) :
    autodetect_location env "Karachi" "" "" none cs false = .ok (none, []) := by
  simp [autodetect_location, step_force_coords, step_force_city, step_browser, step_ip,
        _try_ip_providers, tryProvider, step_fallback, geocode_city,
        hip1, hip2, hip3, hgeo, show pyStripTruthy "" = false by decide]

/-- Witness for `resolver_absent_when_all_signals_fail` at `envAllFail`. -/
theorem resolver_absent_when_all_signals_fail_witness :
    autodetect_location envAllFail "Karachi" "" "" none "" false = .ok (none, []) :=
  resolver_absent_when_all_signals_fail envAllFail "" rfl rfl rfl rfl

/-- Claim C2, counterexample.  Browser coordinates with a reverse geocoder
returning only `{country: "UAE"}`: the result's `country` is "UAE" but its
`name` is `some "Karachi"` — the default city name is fabricated rather
than the field being left null as the claim states. -/
theorem resolver_fabricates_name_cex :
    autodetect_location envUAE "Karachi" "" "" (some blDubai) "" false =
      .ok (some { name := some "Karachi", country := some "UAE", lat := 25, lon := 55,
                  admin1 := none, timezone := some "Asia/Karachi",
                  source := "browser-gps:js-eval" }, []) ∧
    (some "Karachi" : Option String) ≠ none := by
  exact ⟨rfl, by decide⟩

/-- Claim C2, amended.  In the browser-coordinates branch `region` (admin1)
is passed through unfabricated (null when the reverse geocoder supplies
none) and a provider-supplied country is kept, but `displayName` is always
fabricated when missing: it is filled with the default city name; `country`
and `timeZone` get the "Pakistan"/"Asia/Karachi" fillers when absent. -/
theorem browser_branch_fill_rules (env : Env) (d fcity fc cs : String) (sb : Bool)
    (bl : BrowserLoc)
    (hns : cs = "" ∨ sb = false) (hfc : pyStripTruthy fc = false)
    (hfcity : pyStripTruthy fcity = false)
    (hlat : bl.lat ≠ 0) (hlon : bl.lon ≠ 0) :
    autodetect_location env d fcity fc (some bl) cs sb =
      .ok (some { source := "browser-gps:" ++ bl.method,
                  name := pyOr (reverse_geocode env bl.lat bl.lon).name (some d),
                  admin1 := (reverse_geocode env bl.lat bl.lon).admin1,
                  country := pyOr (reverse_geocode env bl.lat bl.lon).country (some "Pakistan"),
                  lat := bl.lat, lon := bl.lon,
                  timezone := pyOr (reverse_geocode env bl.lat bl.lon).timezone
                    (some "Asia/Karachi") }, []) := by
  rcases hns with h | h <;>
    simp [autodetect_location, step_force_coords, step_force_city, step_browser,
          h, hfc, hfcity, hlat, hlon]

/-- Witness for `browser_branch_fill_rules`: reverse geocoder supplying only
a country, default city "Dubai". -/
theorem browser_branch_fill_rules_witness :
    autodetect_location envUAE "Dubai" "" "" (some blDubai) "" true =
      .ok (some { name := some "Dubai", country := some "UAE", lat := 25, lon := 55,
                  admin1 := none, timezone := some "Asia/Karachi",
                  source := "browser-gps:js-eval" }, []) :=
  browser_branch_fill_rules envUAE "Dubai" "" "" "" true blDubai (Or.inl rfl)
    rfl rfl (by decide) (by decide)

/-- Claim C3, counterexample.  A well-formed `FORCE_COORDS` string with no
manual search resolves to exactly the given coordinates, but its source tag
is the string "FORCE_COORDS", not "forced-coords" as the claim states. -/
theorem forced_coords_tag_cex :
    autodetect_location envForce "Karachi" "" "25,55" none "" false =
      .ok (some { name := some "Karachi", country := some "Pakistan", lat := 25, lon := 55,
                  admin1 := none, timezone := some "Asia/Karachi",
                  source := "FORCE_COORDS" }, []) ∧
    "FORCE_COORDS" ≠ "forced-coords" := by
  exact ⟨rfl, by decide⟩

/-- Claim C3, amended.  For every well-formed `FORCE_COORDS` string parsing
to an in-range `(lat, lon)` pair, with no manual search submitted,
resolution returns a record with exactly those coordinates and source tag
"FORCE_COORDS" (not "forced-coords"), regardless of what the reverse
geocoder returns or whether it fails. -/
theorem forced_coords_resolution (env : Env) (d fcity fc cs : String) (sb : Bool)
    (bl : Option BrowserLoc) (lat lon : ℚ)
    (hns : cs = "" ∨ sb = false)
    (htrim : pyStripTruthy fc = true)
    (hparse : parse_force_coords env.strFloat fc = some (lat, lon))
    (hlat : -90 ≤ lat ∧ lat ≤ 90) (hlon : -180 ≤ lon ∧ lon ≤ 180) :
    autodetect_location env d fcity fc bl cs sb =
      .ok (some { source := "FORCE_COORDS",
                  name := pyOr (reverse_geocode env lat lon).name
                    (pyOr (some fcity) (some d)),
                  admin1 := (reverse_geocode env lat lon).admin1,
                  country := pyOr (reverse_geocode env lat lon).country (some "Pakistan"),
                  lat := lat, lon := lon,
                  timezone := pyOr (reverse_geocode env lat lon).timezone
                    (some "Asia/Karachi") }, []) := by
  rcases hns with h | h <;>
    simp [autodetect_location, step_force_coords, h, htrim, hparse]

/-- Witness for `forced_coords_resolution` at `"25,55"` with both reverse
backends unreachable. -/
theorem forced_coords_resolution_witness :
    autodetect_location envForce "Karachi" "" "25,55" none "" false =
      .ok (some { name := some "Karachi", country := some "Pakistan", lat := 25, lon := 55,
                  admin1 := none, timezone := some "Asia/Karachi",
                  source := "FORCE_COORDS" }, []) :=
  forced_coords_resolution envForce "Karachi" "" "25,55" "" false none 25 55
    (Or.inl rfl) (by decide) rfl (by decide) (by decide)

/-- Claim C7, counterexample.  A provider failure does escape the resolver:
with a manual search submitted and the forward-geocoding endpoint failing
(timeout / non-2xx), `autodetect_location` propagates the
`requests.RequestException` instead of converting it to "no result". -/
theorem resolver_raises_cex :
    autodetect_location envNetDown "Karachi" "" "" none "Dubai" true =
      .error .requestError := by
  exact rfl

/-- Claim C7, amended.  Failures inside `reverse_geocode` and IP-provider
network failures are caught, but `geocode_city` has no exception handling:
whenever a step calls it (manual search here) and the endpoint fails, the
exception escapes `autodetect_location`. -/
theorem geocode_failure_escapes_resolver (env : Env) (d cs : String)
    (hcs : cs ≠ "") (hgeo : env.geoApi cs = .netErr) :
    autodetect_location env d "" "" none cs true = .error .requestError := by
  simp [autodetect_location, geocode_city, hcs, hgeo]

/-- Witness for `geocode_failure_escapes_resolver` at `envNetDown`. -/
theorem geocode_failure_escapes_resolver_witness :
    autodetect_location envNetDown "Karachi" "" "" none "London" true =
      .error .requestError :=
  geocode_failure_escapes_resolver envNetDown "Karachi" "London" (by decide) rfl

/-- Claim C4 (confirmed).  For every malformed `FORCE_COORDS` string (wrong
field count such as "1,2,3", or non-numeric parts such as "notanumber,1",
i.e. any string whose comma-split does not convert to exactly two floats),
resolution does not raise at that step: it records the recoverable
`st.warning` and continues with `step_force_city`, which by definition is
the rest of the chain in order — forced city name, then browser
coordinates, then IP providers, then the final fallback. -/
theorem malformed_force_coords_falls_through (env : Env) (d fcity fc cs : String)
    (bl : Option BrowserLoc)
    (htrim : pyStripTruthy fc = true)
    (hbad : parse_force_coords env.strFloat fc = none) :
    autodetect_location env d fcity fc bl cs false =
      step_force_city env d fcity bl
        ["Could not parse FORCE_COORDS. Expected 'lat,lon' (e.g., 25.2048,55.2708 for Dubai)."] := by
  simp [autodetect_location, step_force_coords, htrim, hbad]

/-- Witness for `malformed_force_coords_falls_through` on the claim's two
example inputs: a wrong field count ("1,2,3") and a non-numeric part
("notanumber,1"). -/
theorem malformed_force_coords_falls_through_witness :
    autodetect_location envParts "Karachi" "" "1,2,3" none "" false =
      step_force_city envParts "Karachi" "" none
        ["Could not parse FORCE_COORDS. Expected 'lat,lon' (e.g., 25.2048,55.2708 for Dubai)."] ∧
    autodetect_location envParts "Karachi" "" "notanumber,1" none "" false =
      step_force_city envParts "Karachi" "" none
        ["Could not parse FORCE_COORDS. Expected 'lat,lon' (e.g., 25.2048,55.2708 for Dubai)."] :=
  ⟨malformed_force_coords_falls_through envParts "Karachi" "" "1,2,3" "" none
      (by decide) rfl,
   malformed_force_coords_falls_through envParts "Karachi" "" "notanumber,1" "" none
      (by decide) rfl⟩

/-- Claim C5 (confirmed).  When a manual search is submitted this turn and
the forward geocoder finds the searched city, the result is that city
tagged "city-search", with no warnings — and the result is the same for
every value of `FORCE_COORDS`, so the forced-coordinate step is never
executed. -/
theorem manual_search_precedence (env : Env) (d fcity fc cs : String) (sb : Bool)
    (bl : Option BrowserLoc) (m : Meta)
    (hcs : cs ≠ "") (hsb : sb = true)
    (hfc : pyStripTruthy fc = true)
    (hgeo : geocode_city env cs = .ok (some m)) :
    autodetect_location env d fcity fc bl cs sb =
      .ok (some { m with source := "city-search" }, []) ∧
    ∀ fc2 : String, autodetect_location env d fcity fc2 bl cs sb =
      autodetect_location env d fcity fc bl cs sb := by
  constructor
  · simp [autodetect_location, hcs, hsb, hgeo]
  · intro fc2
    simp [autodetect_location, hcs, hsb, hgeo]

/-- Witness for `manual_search_precedence`: search "Dubai" submitted while
`FORCE_COORDS` is "9,9". -/
theorem manual_search_precedence_witness :
    autodetect_location envSearch "Karachi" "" "9,9" none "Dubai" true =
      .ok (some { name := some "Dubai", country := some "United Arab Emirates",
                  lat := 25, lon := 55, admin1 := some "Dubai",
                  timezone := some "Asia/Dubai", source := "city-search" }, []) ∧
    autodetect_location envSearch "Karachi" "" "0,0" none "Dubai" true =
      autodetect_location envSearch "Karachi" "" "9,9" none "Dubai" true :=
  ⟨(manual_search_precedence envSearch "Karachi" "" "9,9" "Dubai" true none mDubai
      (by decide) rfl (by decide) rfl).1,
   (manual_search_precedence envSearch "Karachi" "" "9,9" "Dubai" true none mDubai
      (by decide) rfl (by decide) rfl).2 "0,0"⟩

/-- Claim C6 (confirmed).  With the chain reaching the IP step, the
providers are tried in the fixed order ipapi.co, ipinfo.io, ipwho.is: when
ipapi.co yields nothing and ipinfo.io parses to truthy coordinates,
ipinfo.io's record wins with its identity in the tag ("ip:ipinfo.io"), and
the result does not depend on ipwho.is's response at all — the remaining
provider is never queried. -/
theorem ip_provider_order_short_circuit (env : Env) (d cs : String)
    (j : IpinfoJson) (p : IpPlace)
    (h1 : tryProvider "ipapi.co" env.ipapi (ipapiParser env.strFloat) = .ok none)
    (h2 : env.ipinfo = .ok j)
    (h3 : ipinfoParser env.strFloat j = .ok (some p))
    (h4 : p.lat ≠ 0) (h5 : p.lon ≠ 0) :
    _try_ip_providers env = .ok (some { p with source := "ipinfo.io" }) ∧
    (∀ w : IpResp IpwhoJson,
      _try_ip_providers { env with ipwho := w } = .ok (some { p with source := "ipinfo.io" })) ∧
    autodetect_location env d "" "" none cs false =
      .ok (some { source := "ip:ipinfo.io",
                  name := pyOr (reverse_geocode env p.lat p.lon).name
                    (pyOr p.city (some d)),
                  admin1 := pyOr (reverse_geocode env p.lat p.lon).admin1 p.region,
                  country := pyOr (reverse_geocode env p.lat p.lon).country
                    (pyOr p.country (some "Pakistan")),
                  lat := p.lat, lon := p.lon,
                  timezone := pyOr (reverse_geocode env p.lat p.lon).timezone
                    (pyOr p.tz (some "Asia/Karachi")) }, []) := by
  have hinfo : tryProvider "ipinfo.io" env.ipinfo (ipinfoParser env.strFloat) =
      .ok (some { p with source := "ipinfo.io" }) := by
    rw [h2]
    simp [tryProvider, h3, h4, h5]
  have hip : _try_ip_providers env = .ok (some { p with source := "ipinfo.io" }) := by
    unfold _try_ip_providers
    rw [h1, hinfo]
  refine ⟨hip, ?_, ?_⟩
  · intro w
    have h1w : tryProvider "ipapi.co" ({ env with ipwho := w } : Env).ipapi
        (ipapiParser ({ env with ipwho := w } : Env).strFloat) = .ok none := h1
    have hinfow : tryProvider "ipinfo.io" ({ env with ipwho := w } : Env).ipinfo
        (ipinfoParser ({ env with ipwho := w } : Env).strFloat) =
        .ok (some { p with source := "ipinfo.io" }) := hinfo
    unfold _try_ip_providers
    rw [h1w, hinfow]
  · simp [autodetect_location, step_force_coords, step_force_city, step_browser, step_ip,
          hip, show pyStripTruthy "" = false by decide]

/-- Witness for `ip_provider_order_short_circuit`: ipapi.co unreachable,
ipinfo.io answering "52,13", ipwho.is replaced by a payload that would also
succeed without changing the outcome. -/
theorem ip_provider_order_short_circuit_witness :
    _try_ip_providers envIpInfo = .ok (some { pBerlin with source := "ipinfo.io" }) ∧
    _try_ip_providers { envIpInfo with ipwho := .ok jLagos } =
      .ok (some { pBerlin with source := "ipinfo.io" }) ∧
    autodetect_location envIpInfo "Karachi" "" "" none "" false =
      .ok (some { name := some "Berlin", country := some "DE", lat := 52, lon := 13,
                  admin1 := some "Berlin", timezone := some "Europe/Berlin",
                  source := "ip:ipinfo.io" }, []) :=
  ⟨(ip_provider_order_short_circuit envIpInfo "Karachi" "" jBerlin pBerlin
      rfl rfl rfl (by decide) (by decide)).1,
   (ip_provider_order_short_circuit envIpInfo "Karachi" "" jBerlin pBerlin
      rfl rfl rfl (by decide) (by decide)).2.1 (.ok jLagos),
   (ip_provider_order_short_circuit envIpInfo "Karachi" "" jBerlin pBerlin
      rfl rfl rfl (by decide) (by decide)).2.2⟩

/-- Claim C8 (confirmed).  `reverse_geocode` consults its two backends in
order: a Nominatim answer yielding any of name, admin1 or country wins and
the Open-Meteo reverse geocoder is not consulted (the result is the same
under any replacement of its response); when Nominatim misses, a non-empty
Open-Meteo `results` list supplies the record; when both miss, the caller
receives the all-empty record. -/
theorem reverse_geocode_backend_order :
    (∀ (env : Env) (lat lon : ℚ) (addr : NAddr),
      env.nominatim lat lon = .ok addr → nominatim_hit addr = true →
      reverse_geocode env lat lon = nominatim_place addr ∧
      ∀ om, reverse_geocode { env with omReverse := om } lat lon = nominatim_place addr) ∧
    (∀ (env : Env) (lat lon : ℚ) (r0 : RevHit) (rest : List RevHit),
      nominatim_miss (env.nominatim lat lon) = true →
      env.omReverse lat lon = .ok (r0 :: rest) →
      reverse_geocode env lat lon =
        { name := r0.name, admin1 := r0.admin1, country := r0.country,
          timezone := r0.timezone, src := some "open-meteo reverse" }) ∧
    (∀ (env : Env) (lat lon : ℚ),
      nominatim_miss (env.nominatim lat lon) = true →
      om_reverse_miss (env.omReverse lat lon) = true →
      reverse_geocode env lat lon =
        { name := none, admin1 := none, country := none, timezone := none,
          src := none }) := by
  refine ⟨?_, ?_, ?_⟩
  · intro env lat lon addr hn hhit
    constructor
    · simp [reverse_geocode, hn, hhit]
    · intro om
      have hn2 : ({ env with omReverse := om } : Env).nominatim lat lon = .ok addr := hn
      unfold reverse_geocode
      rw [hn2]
      simp [hhit]
  · intro env lat lon r0 rest hmiss hom
    cases hn : env.nominatim lat lon with
    | netErr => simp [reverse_geocode, hn, om_reverse_step, hom]
    | ok addr =>
      rw [hn] at hmiss
      simp only [nominatim_miss, Bool.not_eq_true'] at hmiss
      simp [reverse_geocode, hn, hmiss, om_reverse_step, hom]
  · intro env lat lon hmiss homiss
    have hstep : om_reverse_step env lat lon =
        { name := none, admin1 := none, country := none, timezone := none, src := none } := by
      cases hom : env.omReverse lat lon with
      | netErr => simp [om_reverse_step, hom]
      | ok results =>
        rw [hom] at homiss
        cases results with
        | nil => simp [om_reverse_step, hom]
        | cons r rs => simp [om_reverse_miss] at homiss
    cases hn : env.nominatim lat lon with
    | netErr => simp [reverse_geocode, hn, hstep]
    | ok addr =>
      rw [hn] at hmiss
      simp only [nominatim_miss, Bool.not_eq_true'] at hmiss
      simp [reverse_geocode, hn, hmiss, hstep]

/-- Witness for `reverse_geocode_backend_order`: the three cases at
concrete environments (Nominatim-only country hit; Open-Meteo-only hit;
both backends missing). -/
theorem reverse_geocode_backend_order_witness :
    reverse_geocode envUAE 25 55 = nominatim_place addrUAE ∧
    reverse_geocode { envUAE with omReverse := fun _ _ => .ok [rvSome] } 25 55 =
      nominatim_place addrUAE ∧
    reverse_geocode envOmOnly 25 55 =
      { name := some "Somewhere", admin1 := none, country := none, timezone := none,
        src := some "open-meteo reverse" } ∧
    reverse_geocode envAllFail 25 55 =
      { name := none, admin1 := none, country := none, timezone := none, src := none } :=
  ⟨(reverse_geocode_backend_order.1 envUAE 25 55 addrUAE rfl (by decide)).1,
   (reverse_geocode_backend_order.1 envUAE 25 55 addrUAE rfl (by decide)).2
      (fun _ _ => .ok [rvSome]),
   reverse_geocode_backend_order.2.1 envOmOnly 25 55 rvSome [] rfl rfl,
   reverse_geocode_backend_order.2.2 envAllFail 25 55 rfl rfl⟩

/-- Claim C9 (confirmed).  Resolution is deterministic: the embedded
resolver is a pure function of the signals and of the fixed provider
responses (`Env`), so two invocations with identical signals and identical
provider responses return identical results.  (In the source, the provider
calls are `st.cache_data`-memoised requests with no other hidden state, so
fixing the responses fixes the run.) -/
theorem resolve_deterministic (env env2 : Env) (d fcity fc : String)
    (bl : Option BrowserLoc) (cs : String) (sb : Bool)
    (henv : env = env2) :
    autodetect_location env d fcity fc bl cs sb =
      autodetect_location env2 d fcity fc bl cs sb := by
  rw [henv]

/-- Witness for `resolve_deterministic` at `envSearch`. -/
theorem resolve_deterministic_witness :
    autodetect_location envSearch "Karachi" "" "" none "Dubai" true =
      autodetect_location envSearch "Karachi" "" "" none "Dubai" true :=
  resolve_deterministic envSearch envSearch "Karachi" "" "" none "Dubai" true rfl

/-- Claim C10 (confirmed).  A coordinate equal to `0.0` is falsy and hence
treated as absent: browser coordinates with zero latitude or longitude are
skipped (resolution behaves exactly as with no browser coordinates, falling
through to the IP providers), and an IP provider whose parsed latitude or
longitude is zero is treated as returning no result (the loop behaves
exactly as if that provider had failed, trying the next one). -/
theorem zero_coordinate_treated_absent :
    (∀ (env : Env) (d fcity fc cs : String) (sb : Bool) (bl : BrowserLoc),
      bl.lat = 0 ∨ bl.lon = 0 →
      autodetect_location env d fcity fc (some bl) cs sb =
        autodetect_location env d fcity fc none cs sb) ∧
    (∀ (env : Env) (j : IpapiJson) (p : IpPlace),
      env.ipapi = .ok j → ipapiParser env.strFloat j = .ok (some p) →
      p.lat = 0 ∨ p.lon = 0 →
      _try_ip_providers env = _try_ip_providers { env with ipapi := .netErr }) := by
  constructor
  · intro env d fcity fc cs sb bl h
    exact autodetect_browser_cong env d fcity fc cs sb (some bl) none
      (fun w => step_browser_zero env d bl w h)
  · intro env j p h1 h2 h3
    rcases h3 with h3 | h3 <;> simp [_try_ip_providers, tryProvider, h1, h2, h3]

/-- Witness for `zero_coordinate_treated_absent`: browser coordinates on
the equator, and ipapi.co answering latitude `0.0`. -/
theorem zero_coordinate_treated_absent_witness :
    autodetect_location envAllFail "Karachi" "" "" (some blZero) "" false =
      autodetect_location envAllFail "Karachi" "" "" none "" false ∧
    _try_ip_providers envIpZero = _try_ip_providers { envIpZero with ipapi := .netErr } :=
  ⟨zero_coordinate_treated_absent.1 envAllFail "Karachi" "" "" "" false blZero
      (Or.inl rfl),
   zero_coordinate_treated_absent.2 envIpZero jZero pZero rfl rfl (Or.inl rfl)⟩
